import Mathlib

/-!
Verification of the copilot-bumper PR-triage decision engine.

The definitions below are a shallow embedding of src/lib/bumper.js: each
exported JavaScript function becomes a Lean definition of the same name,
JavaScript objects become structures, nullable fields become Option, machine
time (millisecond epoch values) becomes Int, and each fallible transport
fetch becomes an Except value supplied by the environment.  The orchestrator
(run) is embedded as a pure two-pass fold over the shuffled notification
list, threading the run state (comment budget counter and dedup set) and
recording, per processed notification, the outcome of its evaluation.
-/

namespace CopilotBumper

/-- Substring containment over lists, used to embed the JavaScript
String.prototype.includes test: hasSubList pat l is true when pat occurs
contiguously inside l. -/
def hasSubList [BEq α] (pat : List α) : List α → Bool
  | [] => pat.isEmpty
  | a :: as => pat.isPrefixOf (a :: as) || hasSubList pat as

/-- Embedding of the JavaScript s.includes(pat) substring test. -/
def jsIncludes (s pat : String) : Bool :=
  hasSubList pat.data s.data

/-- Embedding of the JavaScript s.toLowerCase() call (character-wise
lowering, which agrees with it on the ASCII strings the program compares). -/
def jsToLower (s : String) : String :=
  String.mk (s.data.map Char.toLower)

/-- Embedding of the JavaScript s.toUpperCase() call (character-wise). -/
def jsToUpper (s : String) : String :=
  String.mk (s.data.map Char.toUpper)

/-- Embedding of the JavaScript s.trim() call: strip whitespace from both
ends. -/
def jsTrim (s : String) : String :=
  String.mk
    (((s.data.dropWhile Char.isWhitespace).reverse.dropWhile
      Char.isWhitespace).reverse)

/-- PR snapshot as fetched from the host (the fields bumper.js reads).
mergeable is tri-state: none embeds the null the host returns while it is
still computing mergeability. -/
structure PR where
  userLogin : String
  title : String
  body : Option String
  draft : Bool
  updatedAt : Int
  mergeable : Option Bool
  mergeableState : String
  deriving DecidableEq, Repr

/-- Issue comment; userLogin embeds the optional chain user?.login (none when
the user object or its login is absent). -/
structure Comment where
  userLogin : Option String
  body : String
  deriving DecidableEq, Repr

/-- Line-level review comment. -/
structure ReviewComment where
  userLogin : Option String
  body : String
  deriving DecidableEq, Repr

/-- Timeline event; sessionOutcome embeds event.copilot_session?.outcome. -/
structure TimelineEvent where
  event : String
  sessionOutcome : Option String
  deriving DecidableEq, Repr

/-- Check run; conclusion is none while the run is still in progress. -/
structure CheckRun where
  conclusion : Option String
  deriving DecidableEq, Repr

/-- A JavaScript value handed to the list-consuming extractors at their
public interface: null, undefined, some non-array value, or an actual
array.  The guards in bumper.js treat the first three uniformly. -/
inductive JsList (α : Type) where
  | null
  | undef
  | notArr
  | arr (xs : List α)
  deriving DecidableEq, Repr

/-- Whether a JsList value is an actual array, embedding Array.isArray
combined with the preceding truthiness test. -/
def JsList.isArr : JsList α → Bool
  | .arr _ => true
  | _ => false

/-- Embedding of isCopilotPr from bumper.js lines 51 to 56. -/
def isCopilotPr (pr : PR) : Bool :=
  let isCopilotUser := pr.userLogin == "copilot[bot]"
  let titleHasCopilot := jsIncludes (jsToLower pr.title) "copilot"
  let bodyHasCopilot :=
    match pr.body with
    | some b => jsIncludes (jsToLower b) "copilot"
    | none => false
  isCopilotUser || titleHasCopilot || bodyHasCopilot

/-- Embedding of isWip from bumper.js lines 63 to 65. -/
def isWip (pr : PR) : Bool :=
  jsIncludes (jsToLower pr.title) "wip" || pr.draft

/-- Embedding of isStalled from bumper.js lines 73 to 76; the implicit
current time (new Date()) is passed explicitly. -/
def isStalled (now : Int) (pr : PR) (thresholdMs : Int) : Bool :=
  let timeSinceUpdate := now - pr.updatedAt
  decide (thresholdMs < timeSinceUpdate)

/-- Embedding of findRelevantComment from bumper.js lines 92 to 99. -/
def findRelevantComment (comments : List Comment) : Option Comment :=
  comments.find? fun comment =>
    !(jsIncludes comment.body "@copilot still working?") &&
    !(jsIncludes comment.body "@copilot please implement the feedback") &&
    !(jsIncludes comment.body "@copilot There is a merge conflict") &&
    !(jsIncludes comment.body "@copilot The CI checks are failing")

/-- Embedding of hasReviewComments from bumper.js lines 107 to 112. -/
def hasReviewComments (reviewComments : JsList ReviewComment) : Bool :=
  match reviewComments with
  | .arr xs => decide (0 < xs.length)
  | _ => false

/-- Embedding of findLatestReviewComment from bumper.js lines 119 to 127;
the truthiness test on comment.user and comment.user.login skips entries
whose user or login is absent and entries whose login is the empty string. -/
def findLatestReviewComment (reviewComments : JsList ReviewComment) :
    Option ReviewComment :=
  match reviewComments with
  | .arr xs =>
    xs.find? fun comment =>
      match comment.userLogin with
      | some l => !l.isEmpty && l != "copilot[bot]"
      | none => false
  | _ => none

/-- Embedding of hasMergeConflict from bumper.js lines 134 to 138. -/
def hasMergeConflict (pr : PR) : Bool :=
  pr.mergeable == some false && pr.mergeableState == "dirty"

/-- The fixed error phrases from bumper.js lines 158 to 170. -/
def errorPatterns : List String :=
  ["i encountered an error",
   "i ran into an error",
   "an error occurred",
   "i\x27m having trouble",
   "i was unable to",
   "i couldn\x27t",
   "failed to",
   "something went wrong",
   "i apologize",
   "unfortunately",
   "i\x27m sorry"]

/-- Embedding of isCopilotError from bumper.js lines 145 to 173; the
truthiness test on comment.body makes the empty body a negative case. -/
def isCopilotError (comment : Option Comment) : Bool :=
  match comment with
  | none => false
  | some comment =>
    if comment.body.isEmpty then false
    else if comment.userLogin != some "copilot[bot]" then false
    else
      let body := jsToLower comment.body
      errorPatterns.any fun pattern => jsIncludes body pattern

/-- Embedding of hasCopilotSessionStopped from bumper.js lines 181 to 187. -/
def hasCopilotSessionStopped (timelineEvents : JsList TimelineEvent) : Bool :=
  match timelineEvents with
  | .arr xs => xs.any fun e => e.event == "copilot_session_stopped"
  | _ => false

/-- Embedding of hasFailedCopilotSession from bumper.js lines 195 to 205. -/
def hasFailedCopilotSession (timelineEvents : JsList TimelineEvent) : Bool :=
  match timelineEvents with
  | .arr xs =>
    xs.any fun e =>
      e.event == "copilot_session_stopped" && e.sessionOutcome == some "failure"
  | _ => false

/-- Embedding of hasFailingCheckRuns from bumper.js lines 212 to 223. -/
def hasFailingCheckRuns (checkRuns : JsList CheckRun) : Bool :=
  match checkRuns with
  | .arr xs =>
    xs.any fun r =>
      r.conclusion == some "failure" ||
      r.conclusion == some "action_required" ||
      r.conclusion == some "timed_out"
  | _ => false

/-- The completion-oracle handle: asking with a prompt either yields the
reply text (the content of the first choice message) or fails with an
error message.  Embeds the OpenAI client handle used by isIssueFixed. -/
structure Oracle where
  ask : String → Except String String

/-- The fixed prompt of isIssueFixed, bumper.js lines 21 to 26, with the
comment body interpolated verbatim. -/
def issueFixedPrompt (commentBody : String) : String :=
  "\nThe following is a comment on a GitHub PR created by Copilot.\nI need to determine if this comment indicates that the issue has been fixed or completed.\nComment: \"" ++
  commentBody ++
  "\"\n\nBased on this comment, is the issue fixed, resolved, or completed? Answer with \"YES\" if it appears to be resolved/fixed/completed, or \"NO\" if it\x27s still in progress or needs more work."

/-- Embedding of isIssueFixed from bumper.js lines 14 to 44: absent comment
or absent oracle resolves false; otherwise the oracle reply is trimmed,
upper-cased and tested for the substring YES, and any failure of the oracle
call is caught and yields false. -/
def isIssueFixed (latestComment : Option Comment) (openai : Option Oracle) :
    Bool :=
  match latestComment, openai with
  | some comment, some oracle =>
    match oracle.ask (issueFixedPrompt comment.body) with
    | .ok content => jsIncludes (jsToUpper (jsTrim content)) "YES"
    | .error _ => false
  | _, _ => false

/-- Nudge template for merge conflicts, bumper.js line 537. -/
def mergeConflictCommentBody : String :=
  "@copilot There is a merge conflict with the base branch. Please merge in the base branch and resolve the conflicts."

/-- Nudge template for failing CI checks, bumper.js line 539. -/
def ciFailureCommentBody : String :=
  "@copilot The CI checks are failing. Please fix the failing tests or build issues."

/-- Nudge template for unaddressed review feedback, bumper.js line 541. -/
def feedbackCommentBody : String :=
  "@copilot please implement the feedback left on this PR."

/-- Generic nudge template, bumper.js line 543. -/
def stillWorkingCommentBody : String :=
  "@copilot still working?"

/-- The priority-ordered comment selection of bumper.js lines 535 to 544:
merge conflict first, then failing checks, then line feedback, else the
generic nudge. -/
def chooseCommentBody (mergeConflict hasFailingChecks hasFeedback : Bool) :
    String :=
  if mergeConflict then mergeConflictCommentBody
  else if hasFailingChecks then ciFailureCommentBody
  else if hasFeedback then feedbackCommentBody
  else stillWorkingCommentBody

/-- The comment budget MAX_COMMENTS_PER_RUN, bumper.js line 335. -/
def maxCommentsPerRun : Nat := 5

/-- MIN_BUMPS_FOR_SECOND_PASS, bumper.js line 337. -/
def minBumpsForSecondPass : Nat := 2

/-- STALL_THRESHOLD_MS (one hour), bumper.js line 339. -/
def stallThresholdStandardMs : Int := 60 * 60 * 1000

/-- RELAXED_STALL_THRESHOLD_MS (30 minutes), bumper.js line 341. -/
def stallThresholdRelaxedMs : Int := 30 * 60 * 1000

/-- The run-scoped mutable state of run(): the commentsCount counter and the
processedPrKeys dedup set (kept as a list of keys). -/
structure RunState where
  commentsCount : Nat
  processedPrKeys : List String
  deriving DecidableEq, Repr

/-- Initial run state: zero comments, empty dedup set. -/
def initialRunState : RunState :=
  { commentsCount := 0, processedPrKeys := [] }

/-- One notification together with the responses the transport layer would
give for this PR during the run: the primary PR fetch may fail (Except),
and each auxiliary fetch (timeline, comments, check runs, review comments)
may fail independently, in which case processNotification degrades exactly
as the try/catch blocks in bumper.js do. -/
structure PrEnv where
  owner : String
  repo : String
  prNumber : String
  prResult : Except Unit PR
  timelineResult : Except Unit (List TimelineEvent)
  commentsResult : Except Unit (List Comment)
  checkRunsResult : Except Unit (List CheckRun)
  reviewCommentsResult : Except Unit (List ReviewComment)

/-- The dedup key owner/repo#number built at bumper.js line 353. -/
def prKeyOf (e : PrEnv) : String :=
  e.owner ++ "/" ++ e.repo ++ "#" ++ e.prNumber

/-- Run configuration: the options of run() plus the oracle handle and the
current time. -/
structure Config where
  skipNonOwnedRepos : Bool
  authedLogin : String
  dryRun : Bool
  openai : Option Oracle
  now : Int

/-- The outcome of one processNotification call, one constructor per return
site of the function in bumper.js:
skippedDedup for the dedup-set early return (line 356), skippedOwner for
the ownership skip (line 365), fetchFailed for the catch of the primary PR
fetch (line 603), neverAutomated for a non-Copilot PR (line 596),
notStalledYet for a Copilot PR under the threshold (line 598),
noAttentionGate for the first WIP/session-stopped/error gate (line 430),
noAttentionGateLate for the second gate that additionally admits session
failure and failing checks (line 460), limitBeforeAnalysis for the budget
guard before the oracle call (line 475), judgedFixed when the oracle says
the issue is fixed (line 581), limitAfterAnalysis for the residual budget
branch (line 585), and dispatched with the chosen comment body for a
successful live or dry-run bump (lines 563 and 576). -/
inductive Outcome where
  | skippedDedup
  | skippedOwner
  | fetchFailed
  | neverAutomated
  | notStalledYet
  | noAttentionGate
  | noAttentionGateLate
  | limitBeforeAnalysis
  | judgedFixed
  | limitAfterAnalysis
  | dispatched (body : String)
  deriving DecidableEq, Repr

/-- Whether an outcome is a dispatched action (live comment post or dry-run
logged intent; both increment commentsCount in bumper.js). -/
def Outcome.isDispatched : Outcome → Bool
  | .dispatched _ => true
  | _ => false

/-- Whether the return site of an outcome adds the PR key to the dedup set
(makes it terminal for the rest of the run).  Reading the return sites of
processNotification: every path adds the key except the dedup early return,
the not-yet-stalled Copilot branch, and the second needs-attention gate. -/
def Outcome.addsKey : Outcome → Bool
  | .skippedDedup => false
  | .notStalledYet => false
  | .noAttentionGateLate => false
  | _ => true

/-- Embedding of processNotification from bumper.js lines 348 to 606.
Returns the updated run state and the outcome of this evaluation.  The
control flow mirrors the source line by line: dedup check, ownership skip,
primary fetch, the stalled-Copilot test, the first WIP/session/error gate,
the second gate extended with session failure and failing checks, the
budget guard, the oracle, review-comment and merge-conflict signals, and
finally the priority-ordered dispatch. -/
def processNotification (cfg : Config) (e : PrEnv) (stallThresholdMs : Int)
    (s : RunState) : RunState × Outcome :=
  let prKey := prKeyOf e
  if s.processedPrKeys.contains prKey then
    (s, .skippedDedup)
  else if cfg.skipNonOwnedRepos && e.owner != cfg.authedLogin then
    ({ s with processedPrKeys := prKey :: s.processedPrKeys }, .skippedOwner)
  else
    match e.prResult with
    | .error _ =>
      ({ s with processedPrKeys := prKey :: s.processedPrKeys }, .fetchFailed)
    | .ok pr =>
      let isCopilot := isCopilotPr pr
      let wipStatus := isWip pr
      let stalledStatus := isStalled cfg.now pr stallThresholdMs
      if isCopilot && stalledStatus then
        let timelineEvents : List TimelineEvent :=
          match e.timelineResult with
          | .ok evs => evs
          | .error _ => []
        let sessionStopped := hasCopilotSessionStopped (.arr timelineEvents)
        let comments : List Comment :=
          match e.commentsResult with
          | .ok cs => cs
          | .error _ => []
        let latestCopilotComment :=
          comments.find? fun c => c.userLogin == some "copilot[bot]"
        let hasError := isCopilotError latestCopilotComment
        if !wipStatus && !sessionStopped && !hasError then
          ({ s with processedPrKeys := prKey :: s.processedPrKeys },
           .noAttentionGate)
        else
          let hasSessionFailure := hasFailedCopilotSession (.arr timelineEvents)
          let hasFailingChecks :=
            match e.checkRunsResult with
            | .ok runs => hasFailingCheckRuns (.arr runs)
            | .error _ => false
          if !wipStatus && !sessionStopped && !hasError &&
             !hasSessionFailure && !hasFailingChecks then
            (s, .noAttentionGateLate)
          else if maxCommentsPerRun ≤ s.commentsCount then
            ({ s with processedPrKeys := prKey :: s.processedPrKeys },
             .limitBeforeAnalysis)
          else
            let isFixed :=
              match cfg.openai with
              | some oracle =>
                match findRelevantComment comments with
                | some latestComment =>
                  isIssueFixed (some latestComment) (some oracle)
                | none => false
              | none => false
            let reviewComments : List ReviewComment :=
              match e.reviewCommentsResult with
              | .ok rcs => rcs
              | .error _ => []
            let hasFeedback := hasReviewComments (.arr reviewComments)
            let mergeConflict := hasMergeConflict pr
            if !isFixed && s.commentsCount < maxCommentsPerRun then
              ({ commentsCount := s.commentsCount + 1,
                 processedPrKeys := prKey :: s.processedPrKeys },
               .dispatched
                 (chooseCommentBody mergeConflict hasFailingChecks hasFeedback))
            else if isFixed then
              ({ s with processedPrKeys := prKey :: s.processedPrKeys },
               .judgedFixed)
            else
              ({ s with processedPrKeys := prKey :: s.processedPrKeys },
               .limitAfterAnalysis)
      else
        if !isCopilot then
          ({ s with processedPrKeys := prKey :: s.processedPrKeys },
           .neverAutomated)
        else
          (s, .notStalledYet)

/-- One pass of run() (bumper.js lines 610 to 618 and 624 to 632): process
the shuffled notifications in order, and after each call stop the pass if
the comment budget is exhausted.  Returns the final state and the trace of
(key, outcome) pairs for the notifications actually evaluated. -/
def runPass (cfg : Config) (stallThresholdMs : Int) :
    List PrEnv → RunState → RunState × List (String × Outcome)
  | [], s => (s, [])
  | e :: rest, s =>
    let step := processNotification cfg e stallThresholdMs s
    if maxCommentsPerRun ≤ step.1.commentsCount then
      (step.1, [(prKeyOf e, step.2)])
    else
      let tail := runPass cfg stallThresholdMs rest step.1
      (tail.1, (prKeyOf e, step.2) :: tail.2)

/-- Embedding of the two-pass orchestration of run(), bumper.js lines 608
to 633: a first pass with the standard one-hour threshold, then, only when
fewer than minBumpsForSecondPass comments were made and budget remains, a
second pass over the same shuffled list with the relaxed 30-minute
threshold.  Returns the final state and the concatenated trace. -/
def runBumper (cfg : Config) (shuffledNotifications : List PrEnv) :
    RunState × List (String × Outcome) :=
  let p1 := runPass cfg stallThresholdStandardMs shuffledNotifications
    initialRunState
  if p1.1.commentsCount < minBumpsForSecondPass &&
     p1.1.commentsCount < maxCommentsPerRun then
    let p2 := runPass cfg stallThresholdRelaxedMs shuffledNotifications p1.1
    (p2.1, p1.2 ++ p2.2)
  else
    p1

/-- The bodies of all dispatched actions in a trace (live posts and dry-run
intents alike; both count against the budget). -/
def dispatchedBodies (trace : List (String × Outcome)) : List String :=
  trace.filterMap fun entry =>
    match entry.2 with
    | .dispatched body => some body
    | _ => none

/-- The comment bodies actually posted to the host: all dispatched bodies
when live, none under dry run (postComment is suppressed). -/
def postedComments (cfg : Config) (trace : List (String × Outcome)) :
    List String :=
  if cfg.dryRun then [] else dispatchedBodies trace

/-- A fixed current time (millisecond epoch) for the concrete scenarios. -/
def fixedNow : Int := 10000000000

/-- Scenario C configuration: live run, no ownership filtering, no oracle. -/
def cfgC1 : Config :=
  { skipNonOwnedRepos := false, authedLogin := "benbalter", dryRun := false,
    openai := none, now := fixedNow }

/-- Scenario C pull request: automated author, not WIP, not draft, last
updated three hours ago, no merge conflict. -/
def prC1 : PR :=
  { userLogin := "copilot[bot]", title := "Add integration", body := none,
    draft := false, updatedAt := fixedNow - 3 * 60 * 60 * 1000,
    mergeable := some true, mergeableState := "clean" }

/-- Scenario C environment: empty timeline (no session-stopped event), no
comments (no bot error comment), one check run with conclusion failure. -/
def envC1 : PrEnv :=
  { owner := "benbalter", repo := "demo", prNumber := "101",
    prResult := .ok prC1, timelineResult := .ok [], commentsResult := .ok [],
    checkRunsResult := .ok [{ conclusion := some "failure" }],
    reviewCommentsResult := .ok [] }

/-- Dedup-scenario configuration. -/
def cfgC2 : Config :=
  { skipNonOwnedRepos := false, authedLogin := "benbalter", dryRun := false,
    openai := none, now := fixedNow }

/-- Dedup-scenario pull request: automated author, stalled under both
thresholds, not WIP. -/
def prC2 : PR :=
  { userLogin := "copilot[bot]", title := "Refactor helpers", body := none,
    draft := false, updatedAt := fixedNow - 2 * 60 * 60 * 1000,
    mergeable := some true, mergeableState := "clean" }

/-- Dedup-scenario environment: every needs-attention signal is absent (no
session events, no comments, all checks clean, no feedback). -/
def envC2 : PrEnv :=
  { owner := "benbalter", repo := "demo", prNumber := "202",
    prResult := .ok prC2, timelineResult := .ok [], commentsResult := .ok [],
    checkRunsResult := .ok [], reviewCommentsResult := .ok [] }

/-- Budget-witness environment: its primary fetch errors, so any evaluation
of it is terminal without a dispatch. -/
def envC3 : PrEnv :=
  { owner := "benbalter", repo := "demo", prNumber := "303",
    prResult := .error (), timelineResult := .ok [], commentsResult := .ok [],
    checkRunsResult := .ok [], reviewCommentsResult := .ok [] }

/-- Budget-scenario configuration: live run, no oracle. -/
def cfgC4 : Config :=
  { skipNonOwnedRepos := false, authedLogin := "benbalter", dryRun := false,
    openai := none, now := fixedNow }

/-- Budget-scenario pull request: eligible for a generic nudge (automated
author, WIP title, stalled two hours, no conflict). -/
def prC4 : PR :=
  { userLogin := "copilot[bot]", title := "WIP: polish output", body := none,
    draft := false, updatedAt := fixedNow - 2 * 60 * 60 * 1000,
    mergeable := some true, mergeableState := "clean" }

/-- Budget-scenario environment for one PR number: every auxiliary fetch
succeeds with no signals, so the PR is eligible with the generic nudge. -/
def envC4 (n : String) : PrEnv :=
  { owner := "benbalter", repo := "demo", prNumber := n,
    prResult := .ok prC4, timelineResult := .ok [], commentsResult := .ok [],
    checkRunsResult := .ok [], reviewCommentsResult := .ok [] }

/-- Priority-scenario configuration. -/
def cfgC5 : Config :=
  { skipNonOwnedRepos := false, authedLogin := "benbalter", dryRun := false,
    openai := none, now := fixedNow }

/-- Priority-scenario pull request: eligible (WIP, automated, stalled) with
a merge conflict (mergeable false, state dirty). -/
def prC5 : PR :=
  { userLogin := "copilot[bot]", title := "WIP: cleanup", body := none,
    draft := false, updatedAt := fixedNow - 2 * 60 * 60 * 1000,
    mergeable := some false, mergeableState := "dirty" }

/-- Priority-scenario environment: failing check run and line feedback are
both present together with the merge conflict. -/
def envC5 : PrEnv :=
  { owner := "benbalter", repo := "demo", prNumber := "505",
    prResult := .ok prC5, timelineResult := .ok [], commentsResult := .ok [],
    checkRunsResult := .ok [{ conclusion := some "failure" }],
    reviewCommentsResult := .ok
      [{ userLogin := some "reviewer", body := "please rename this" }] }

set_option maxHeartbeats 1000000 in
/-- Auxiliary: one processNotification step either leaves the comment
counter unchanged and does not dispatch, or dispatches exactly one action,
increments the counter by one, and only does so below the budget. -/
theorem pn_step (cfg : Config) (e : PrEnv) (th : Int) (s : RunState) :
    ((processNotification cfg e th s).1.commentsCount = s.commentsCount
      ∧ ((processNotification cfg e th s).2).isDispatched = false)
    ∨ (s.commentsCount < maxCommentsPerRun
      ∧ (processNotification cfg e th s).1.commentsCount = s.commentsCount + 1
      ∧ ∃ body,
          (processNotification cfg e th s).2 = Outcome.dispatched body) := by
  unfold processNotification
  dsimp only
  repeat' split
  all_goals
    first
    | exact Or.inl ⟨rfl, rfl⟩
    | exact Or.inr ⟨by omega, rfl, _, rfl⟩

set_option maxHeartbeats 1000000 in
/-- Auxiliary: one processNotification step either prepends the PR key to
the dedup set (exactly the outcomes whose return site adds the key) or
leaves the dedup set unchanged. -/
theorem pn_keys (cfg : Config) (e : PrEnv) (th : Int) (s : RunState) :
    ((processNotification cfg e th s).1.processedPrKeys
        = prKeyOf e :: s.processedPrKeys
      ∧ ((processNotification cfg e th s).2).addsKey = true)
    ∨ ((processNotification cfg e th s).1.processedPrKeys = s.processedPrKeys
      ∧ ((processNotification cfg e th s).2).addsKey = false) := by
  unfold processNotification
  dsimp only
  repeat' split
  all_goals
    first
    | exact Or.inl ⟨rfl, rfl⟩
    | exact Or.inr ⟨rfl, rfl⟩

/-- Auxiliary: a non-dispatched trace entry contributes no dispatched
body. -/
theorem dispatchedBodies_cons_of_not (k : String) (o : Outcome)
    (t : List (String × Outcome)) (h : o.isDispatched = false) :
    dispatchedBodies ((k, o) :: t) = dispatchedBodies t := by
  cases o <;>
    simp_all [dispatchedBodies, Outcome.isDispatched, List.filterMap_cons]

/-- Auxiliary: a dispatched trace entry contributes its body. -/
theorem dispatchedBodies_cons_dispatched (k body : String)
    (t : List (String × Outcome)) :
    dispatchedBodies ((k, Outcome.dispatched body) :: t)
      = body :: dispatchedBodies t := by
  simp [dispatchedBodies, List.filterMap_cons]

/-- Auxiliary: dispatched bodies of a concatenated trace. -/
theorem dispatchedBodies_append (t₁ t₂ : List (String × Outcome)) :
    dispatchedBodies (t₁ ++ t₂) = dispatchedBodies t₁ ++ dispatchedBodies t₂ := by
  simp [dispatchedBodies, List.filterMap_append]

/-- Auxiliary: over one pass, the comment counter grows by exactly the
number of dispatched actions in the pass trace, and the budget bound is
preserved. -/
theorem runPass_spec (cfg : Config) (th : Int) :
    ∀ (l : List PrEnv) (s : RunState),
      ((runPass cfg th l s).1.commentsCount
        = s.commentsCount + (dispatchedBodies (runPass cfg th l s).2).length)
      ∧ (s.commentsCount ≤ maxCommentsPerRun →
          (runPass cfg th l s).1.commentsCount ≤ maxCommentsPerRun)
  | [] => fun s => by simp [runPass, dispatchedBodies]
  | e :: rest => fun s => by
    have hstep := pn_step cfg e th s
    have ih := runPass_spec cfg th rest (processNotification cfg e th s).1
    unfold runPass
    dsimp only
    split
    case isTrue hbreak =>
      rcases hstep with ⟨hc, hd⟩ | ⟨hlt, hc, body, hb⟩
      · rw [dispatchedBodies_cons_of_not _ _ _ hd]
        refine ⟨by simp [dispatchedBodies, hc],
          fun hle => by dsimp only; omega⟩
      · rw [hb, dispatchedBodies_cons_dispatched]
        refine ⟨by simp [dispatchedBodies, hc],
          fun hle => by dsimp only; omega⟩
    case isFalse hcont =>
      rcases hstep with ⟨hc, hd⟩ | ⟨hlt, hc, body, hb⟩
      · rw [dispatchedBodies_cons_of_not _ _ _ hd]
        exact ⟨by rw [ih.1, hc], fun hle => ih.2 (by omega)⟩
      · rw [hb, dispatchedBodies_cons_dispatched]
        refine ⟨?_, fun hle => ih.2 (by omega)⟩
        rw [ih.1, hc]
        simp
        omega

/-- Auxiliary: across the whole two-pass run, the final comment counter
equals the total number of dispatched actions and stays within budget. -/
theorem runBumper_spec (cfg : Config) (l : List PrEnv) :
    ((runBumper cfg l).1.commentsCount
      = (dispatchedBodies (runBumper cfg l).2).length)
    ∧ (runBumper cfg l).1.commentsCount ≤ maxCommentsPerRun := by
  have h1 := runPass_spec cfg stallThresholdStandardMs l initialRunState
  unfold runBumper
  dsimp only
  split
  case isTrue hpass2 =>
    have h2 := runPass_spec cfg stallThresholdRelaxedMs l
      (runPass cfg stallThresholdStandardMs l initialRunState).1
    constructor
    · rw [dispatchedBodies_append]
      have h0 : initialRunState.commentsCount = 0 := rfl
      simp only [List.length_append]
      omega
    · exact h2.2 (h1.2 (by simp [initialRunState, maxCommentsPerRun]))
  case isFalse hno =>
    constructor
    · have h0 : initialRunState.commentsCount = 0 := rfl
      omega
    · exact h1.2 (by simp [initialRunState, maxCommentsPerRun])

/-- C1: the spec (Scenario C) says an automated-author PR, stalled past the
threshold, not WIP, with no session-stopped event and no bot error comment
but with a failing check run, is judged eligible with actionKind ci-failure.
The code instead rejects such a PR at the first WIP/session-stopped/error
gate (bumper.js line 427), marking the key terminal before check runs are
even consulted: on the concrete Scenario C input the engine returns the
noAttentionGate outcome and dispatches nothing. -/
theorem C1_failing_checks_blocked_by_first_gate :
    isCopilotPr prC1 = true
    ∧ isWip prC1 = false
    ∧ prC1.draft = false
    ∧ isStalled fixedNow prC1 stallThresholdStandardMs = true
    ∧ hasFailingCheckRuns (JsList.arr [{ conclusion := some "failure" }]) = true
    ∧ processNotification cfgC1 envC1 stallThresholdStandardMs initialRunState
        = ({ commentsCount := 0, processedPrKeys := ["benbalter/demo#101"] },
           Outcome.noAttentionGate) := by
  decide

/-- C2 counterexample: an automated-author, stalled PR that failed only the
needs-attention gate (all attention signals absent) is nevertheless marked
terminal in pass 1 — its key enters the dedup set at the first gate, and in
pass 2 the PR is skipped by dedup instead of being re-evaluated, refuting
the claim that such a key is left non-terminal. -/
theorem C2_counterexample_gate_failure_is_terminal :
    isCopilotPr prC2 = true
    ∧ isStalled fixedNow prC2 stallThresholdStandardMs = true
    ∧ runBumper cfgC2 [envC2]
        = ({ commentsCount := 0, processedPrKeys := ["benbalter/demo#202"] },
           [("benbalter/demo#202", Outcome.noAttentionGate),
            ("benbalter/demo#202", Outcome.skippedDedup)]) := by
  decide

/-- C2 (amended): for a PR key not yet in the dedup set, the key is made
terminal exactly when the evaluation ends at a key-adding return site:
successful dispatch, never-automated verdict, primary-fetch error,
ownership skip, first needs-attention gate failure, budget already reached,
or oracle-judged fixed; it stays non-terminal exactly for the
not-yet-stalled outcome (and the unreachable second gate), so only
automated PRs failing the stall threshold are re-evaluated in pass 2. -/
theorem C2_amended_terminality (cfg : Config) (e : PrEnv) (th : Int)
    (s : RunState)
    (h : s.processedPrKeys.contains (prKeyOf e) = false) :
    (processNotification cfg e th s).1.processedPrKeys.contains (prKeyOf e)
      = ((processNotification cfg e th s).2).addsKey := by
  rcases pn_keys cfg e th s with ⟨hk, ha⟩ | ⟨hk, ha⟩ <;> rw [hk, ha]
  · simp
  · exact h

/-- C2 witness: the terminality characterization evaluated on the concrete
dedup-scenario input. -/
theorem C2_amended_terminality_witness :
    (processNotification cfgC2 envC2 stallThresholdStandardMs
        initialRunState).1.processedPrKeys.contains (prKeyOf envC2)
      = ((processNotification cfgC2 envC2 stallThresholdStandardMs
        initialRunState).2).addsKey :=
  C2_amended_terminality cfgC2 envC2 stallThresholdStandardMs initialRunState
    (by decide)

/-- C3: across both passes of a run combined, the number of dispatched
actions (live posts and dry-run intents alike, both counted against the
budget) never exceeds the configured cap of five; the counter never
decreases at any step, and a step starting at the cap never dispatches. -/
theorem C3_budget_never_exceeded :
    (∀ (cfg : Config) (shuffled : List PrEnv),
        (dispatchedBodies (runBumper cfg shuffled).2).length ≤ 5)
    ∧ (∀ (cfg : Config) (e : PrEnv) (th : Int) (s : RunState),
        s.commentsCount ≤ (processNotification cfg e th s).1.commentsCount)
    ∧ (∀ (cfg : Config) (e : PrEnv) (th : Int) (s : RunState),
        5 ≤ s.commentsCount →
        ((processNotification cfg e th s).2).isDispatched = false) := by
  refine ⟨fun cfg shuffled => ?_, fun cfg e th s => ?_, fun cfg e th s h => ?_⟩
  · have h := runBumper_spec cfg shuffled
    have hm : maxCommentsPerRun = 5 := rfl
    omega
  · rcases pn_step cfg e th s with ⟨hc, _⟩ | ⟨_, hc, _⟩ <;> omega
  · rcases pn_step cfg e th s with ⟨_, hd⟩ | ⟨hlt, _, _⟩
    · exact hd
    · have hm : maxCommentsPerRun = 5 := rfl
      omega

/-- C3 witness: a step whose counter already sits at the cap dispatches
nothing on a concrete input. -/
theorem C3_budget_witness :
    ((processNotification cfgC2 envC3 stallThresholdStandardMs
        { commentsCount := 5, processedPrKeys := [] }).2).isDispatched
      = false :=
  C3_budget_never_exceeded.2.2 cfgC2 envC3 stallThresholdStandardMs
    { commentsCount := 5, processedPrKeys := [] } (by decide)

/-- C4 counterexample: with budget five and six eligible PRs in the
shuffled order, the run trace contains exactly the five dispatches for the
first five PRs — the sixth PR is absent from the trace and its key never
enters the dedup set, so its verdict was never computed at all (the pass
breaks at the limit before reaching it), refuting the claim that its
verdict is computed with only its dispatch skipped. -/
theorem C4_counterexample_sixth_pr_never_evaluated :
    runBumper cfgC4
        [envC4 "1", envC4 "2", envC4 "3", envC4 "4", envC4 "5", envC4 "6"]
      = ({ commentsCount := 5,
           processedPrKeys :=
             ["benbalter/demo#5", "benbalter/demo#4", "benbalter/demo#3",
              "benbalter/demo#2", "benbalter/demo#1"] },
         [("benbalter/demo#1", Outcome.dispatched stillWorkingCommentBody),
          ("benbalter/demo#2", Outcome.dispatched stillWorkingCommentBody),
          ("benbalter/demo#3", Outcome.dispatched stillWorkingCommentBody),
          ("benbalter/demo#4", Outcome.dispatched stillWorkingCommentBody),
          ("benbalter/demo#5", Outcome.dispatched stillWorkingCommentBody)]) := by
  decide

/-- C4 (amended): with budget five and six eligible PRs, the live run makes
exactly five postComment calls, and the sixth PR is not evaluated: the pass
stops at the limit before reaching it, its key stays outside the dedup set
and no verdict outcome for it appears in the trace. -/
theorem C4_amended_budget_scenario :
    (postedComments cfgC4
        (runBumper cfgC4
          [envC4 "1", envC4 "2", envC4 "3", envC4 "4", envC4 "5",
           envC4 "6"]).2).length = 5
    ∧ ((runBumper cfgC4
          [envC4 "1", envC4 "2", envC4 "3", envC4 "4", envC4 "5",
           envC4 "6"]).2.map Prod.fst).contains (prKeyOf (envC4 "6")) = false
    ∧ (runBumper cfgC4
          [envC4 "1", envC4 "2", envC4 "3", envC4 "4", envC4 "5",
           envC4 "6"]).1.processedPrKeys.contains (prKeyOf (envC4 "6"))
        = false := by
  decide

/-- C5: the chosen action follows the fixed priority with first match
winning — merge conflict, then failing checks, then review feedback, then
the generic nudge — and on a concrete eligible PR carrying all three
signals at once the engine dispatches the merge-conflict template. -/
theorem C5_action_priority :
    (∀ fc fb : Bool, chooseCommentBody true fc fb = mergeConflictCommentBody)
    ∧ (∀ fb : Bool, chooseCommentBody false true fb = ciFailureCommentBody)
    ∧ chooseCommentBody false false true = feedbackCommentBody
    ∧ chooseCommentBody false false false = stillWorkingCommentBody
    ∧ hasMergeConflict prC5 = true
    ∧ (processNotification cfgC5 envC5 stallThresholdStandardMs
        initialRunState).2 = Outcome.dispatched mergeConflictCommentBody := by
  refine ⟨fun fc fb => rfl, fun fb => rfl, rfl, rfl, by decide, by decide⟩

/-- C6: isStalled is true exactly when the elapsed time since the last
update strictly exceeds the threshold; at the boundary where the elapsed
time equals the threshold the PR is not stalled, and one millisecond past
the boundary it is. -/
theorem C6_isStalled_strict_threshold :
    (∀ (now : Int) (pr : PR) (t : Int),
        isStalled now pr t = true ↔ t < now - pr.updatedAt)
    ∧ (∀ (pr : PR) (t : Int), isStalled (pr.updatedAt + t) pr t = false)
    ∧ (∀ (pr : PR) (t : Int),
        isStalled (pr.updatedAt + t + 1) pr t = true) := by
  refine ⟨fun now pr t => ?_, fun pr t => ?_, fun pr t => ?_⟩
  · simp [isStalled]
  · simp [isStalled]
  · simp [isStalled]
    omega

/-- C7: hasMergeConflict holds exactly when mergeable is explicitly false
and the mergeable state is dirty; in particular it is false whenever
mergeable is null (none), whatever the mergeable state. -/
theorem C7_merge_conflict_characterization :
    (∀ pr : PR, hasMergeConflict pr = true
        ↔ pr.mergeable = some false ∧ pr.mergeableState = "dirty")
    ∧ (∀ pr : PR, pr.mergeable = none → hasMergeConflict pr = false) := by
  constructor
  · intro pr
    simp [hasMergeConflict]
  · intro pr h
    simp [hasMergeConflict, h]

/-- C7 witness: a PR whose mergeable field is still null is reported
conflict-free even in the dirty state. -/
theorem C7_merge_conflict_witness :
    hasMergeConflict
      { userLogin := "copilot[bot]", title := "t", body := none,
        draft := false, updatedAt := 0, mergeable := none,
        mergeableState := "dirty" } = false :=
  C7_merge_conflict_characterization.2 _ rfl

/-- C8: the completion oracle resolves false when the comment or the oracle
handle is absent; with both present it returns exactly the YES-substring
test on the trimmed, upper-cased reply, and an oracle failure is caught and
yields false, so the oracle never propagates an error. -/
theorem C8_oracle_contract :
    (∀ o : Option Oracle, isIssueFixed none o = false)
    ∧ (∀ c : Option Comment, isIssueFixed c none = false)
    ∧ (∀ (c : Comment) (o : Oracle) (reply : String),
        o.ask (issueFixedPrompt c.body) = Except.ok reply →
        isIssueFixed (some c) (some o)
          = jsIncludes (jsToUpper (jsTrim reply)) "YES")
    ∧ (∀ (c : Comment) (o : Oracle) (msg : String),
        o.ask (issueFixedPrompt c.body) = Except.error msg →
        isIssueFixed (some c) (some o) = false) := by
  refine ⟨fun o => ?_, fun c => ?_, fun c o reply h => ?_, fun c o msg h => ?_⟩
  · cases o <;> rfl
  · cases c <;> rfl
  · simp [isIssueFixed, h]
  · simp [isIssueFixed, h]

/-- C8 witness: a concrete oracle whose reply is an affirmative sentence
makes isIssueFixed return the YES test on the normalized reply. -/
theorem C8_oracle_contract_witness :
    isIssueFixed (some { userLogin := some "user", body := "done" })
        (some { ask := fun _ => Except.ok " yes, it is resolved " })
      = jsIncludes (jsToUpper (jsTrim " yes, it is resolved ")) "YES" :=
  C8_oracle_contract.2.2.1 { userLogin := some "user", body := "done" }
    { ask := fun _ => Except.ok " yes, it is resolved " }
    " yes, it is resolved " rfl

/-- C9: each list-consuming extractor returns its negative result on every
non-array input (null, undefined, or any other non-array value) instead of
failing. -/
theorem C9_extractors_total_on_non_arrays :
    (∀ v : JsList ReviewComment, v.isArr = false →
        hasReviewComments v = false ∧ findLatestReviewComment v = none)
    ∧ (∀ v : JsList TimelineEvent, v.isArr = false →
        hasCopilotSessionStopped v = false)
    ∧ (∀ v : JsList CheckRun, v.isArr = false →
        hasFailingCheckRuns v = false) := by
  refine ⟨fun v h => ?_, fun v h => ?_, fun v h => ?_⟩ <;>
    cases v <;>
      simp_all [JsList.isArr, hasReviewComments, findLatestReviewComment,
        hasCopilotSessionStopped, hasFailingCheckRuns]

/-- C9 witness: the four extractors on a null input. -/
theorem C9_extractors_witness :
    hasReviewComments (JsList.null (α := ReviewComment)) = false
    ∧ findLatestReviewComment (JsList.null (α := ReviewComment)) = none
    ∧ hasCopilotSessionStopped (JsList.null (α := TimelineEvent)) = false
    ∧ hasFailingCheckRuns (JsList.null (α := CheckRun)) = false :=
  ⟨(C9_extractors_total_on_non_arrays.1 JsList.null rfl).1,
   (C9_extractors_total_on_non_arrays.1 JsList.null rfl).2,
   C9_extractors_total_on_non_arrays.2.1 JsList.null rfl,
   C9_extractors_total_on_non_arrays.2.2 JsList.null rfl⟩

/-- C10: a failed assistant session is always also a stopped session — the
session-failed extractor implies the session-stopped extractor on every
input. -/
theorem C10_failed_session_implies_stopped
    (v : JsList TimelineEvent)
    (h : hasFailedCopilotSession v = true) :
    hasCopilotSessionStopped v = true := by
  cases v <;>
    simp_all [hasFailedCopilotSession, hasCopilotSessionStopped]
  case arr xs =>
    obtain ⟨e, he, h1, h2⟩ := h
    exact ⟨e, he, h1⟩

/-- C10 witness: a timeline carrying one stopped event with failure outcome
satisfies both extractors. -/
theorem C10_failed_session_witness :
    hasCopilotSessionStopped
      (JsList.arr
        [{ event := "copilot_session_stopped",
           sessionOutcome := some "failure" }]) = true :=
  C10_failed_session_implies_stopped _ (by decide)

end CopilotBumper
